import Mathlib

/-!
Verification of the MFA-Version-2 Kite MCP client (`kite_mcp_client.py`,
`streamlit_app.py`) against its natural-language specification.

Strings are modeled as lists of characters.  Python `s.split(sep)[i]` is
modeled through `beforeFirst` / `afterFirst` (only the indices 0 and 1 are
ever used by the source, always under an `in` guard, so the partial indexing
is total here).  Decoded JSON bodies are modeled by the inductive `JVal`,
and the handful of Python dynamic operations the source applies to decoded
bodies (`in`, subscript, `.get`) are modeled by functions returning
`Except`, whose error values stand for the Python exceptions (`TypeError`,
`KeyError`, `AttributeError`) that the source catches at each operation's
boundary.  The network is an oracle: each HTTP POST attempt either faults
(any exception raised while posting or decoding, including timeouts) or
yields a status code together with the JSON-decoding result of the body.
-/

namespace MFAv2

/-- Strings as lists of characters. -/
abbrev Str := List Char

/-- ASCII whitespace stripped by Python `str.strip()`. -/
def isPySpace (c : Char) : Bool :=
  c == ' ' || c == '\t' || c == '\n' || c == '\r' || c == '\x0b' || c == '\x0c'

/-- Python `s.strip()`. -/
def pyStrip (s : Str) : Str :=
  ((s.dropWhile isPySpace).reverse.dropWhile isPySpace).reverse

/-- The remainder of the haystack after the first (leftmost) occurrence of
`sep`, or `none` when `sep` does not occur.  This is the scanning semantics
of Python substring search. -/
def afterFirst (sep : Str) : Str → Option Str
  | [] => if sep.isEmpty then some [] else none
  | c :: rest =>
    if sep.isPrefixOf (c :: rest) then some ((c :: rest).drop sep.length)
    else afterFirst sep rest

/-- The prefix of the haystack strictly before the first occurrence of
`sep`; the whole haystack when `sep` does not occur.  This is Python
`s.split(sep)[0]`. -/
def beforeFirst (sep : Str) : Str → Str
  | [] => []
  | c :: rest =>
    if sep.isPrefixOf (c :: rest) then [] else c :: beforeFirst sep rest

/-- Python substring containment: the `in` operator on strings. -/
def strContains (needle hay : Str) : Bool := (afterFirst needle hay).isSome

/-- Python `s.split(sep)[1]`: the segment between the first occurrence of
`sep` and the next (non-overlapping) occurrence, or the end of the string.
The source only evaluates this under a guard ensuring `sep` occurs. -/
def pySplitSecond (sep s : Str) : Str :=
  beforeFirst sep ((afterFirst sep s).getD [])

/-- Python `s.split(sep)[0]`. -/
def pySplitHead (sep s : Str) : Str := beforeFirst sep s

/-- Decimal digits of a natural number, with fuel (fuel `n+1` suffices). -/
def natToStrAux : Nat → Nat → Str
  | 0, _ => []
  | fuel + 1, n =>
    if n < 10 then [Nat.digitChar n]
    else natToStrAux fuel (n / 10) ++ [Nat.digitChar (n % 10)]

/-- Decimal rendering of a natural number (models Python f-string of an int
status code). -/
def natToStr (n : Nat) : Str := natToStrAux (n + 1) n

/-- A list of naturals is strictly increasing. -/
def strictIncrB : List Nat → Bool
  | [] => true
  | [_] => true
  | a :: b :: t => decide (a < b) && strictIncrB (b :: t)

/-- Decoded JSON values. -/
inductive JVal where
  | obj : List (Str × JVal) → JVal
  | arr : List JVal → JVal
  | str : Str → JVal
  | num : Int → JVal
  | bool : Bool → JVal
  | null : JVal

/-- Equality of a JSON value with a Python string (used by Python `in` on a
list: comparing each element against a `str` needle; only a `str` element
can compare equal). -/
def jvalIsStr (v : JVal) (s : Str) : Bool :=
  match v with
  | .str t => t == s
  | _ => false

/-- Python `key in v` where `key` is a string: key membership for dicts,
element membership for lists, substring for strings, `TypeError` for the
non-iterable scalars. -/
def pyIn (key : Str) (v : JVal) : Except Str Bool :=
  match v with
  | .obj fs => .ok (fs.any (fun kv => kv.1 == key))
  | .arr es => .ok (es.any (fun e => jvalIsStr e key))
  | .str s => .ok (strContains key s)
  | _ => .error ("TypeError".toList)

/-- Python `v[key]` with a string key: dict lookup (`KeyError` when the key
is absent), `TypeError` on every other shape. -/
def pySub (v : JVal) (key : Str) : Except Str JVal :=
  match v with
  | .obj fs =>
    match fs.find? (fun kv => kv.1 == key) with
    | some kv => .ok kv.2
    | none => .error ("KeyError".toList)
  | _ => .error ("TypeError".toList)

/-- Python `v.get("text", "")`: defaulting dict lookup; `AttributeError`
when `v` is not a dict. -/
def pyGetText (v : JVal) : Except Str JVal :=
  match v with
  | .obj fs =>
    match fs.find? (fun kv => kv.1 == ("text".toList)) with
    | some kv => .ok kv.2
    | none => .ok (.str [])
  | _ => .error ("AttributeError".toList)

/-- The result envelope `MCPResponse` of `kite_mcp_client.py` (lines
14-19). -/
structure MCPResponse where
  success : Bool
  data : Option JVal := none
  error : Option Str := none
  login_url : Option Str := none

/-- The request envelope: JSON-RPC version tag, request id, method name,
parameters. -/
structure RequestEnvelope where
  jsonrpc : Str
  id : Nat
  method : Str
  params : JVal

/-- The client's authentication state: the `session_id` and `authenticated`
fields of `KiteMCPClient` (lines 25-26; both start empty/false). -/
structure ClientState where
  session_id : Option Str
  authenticated : Bool
deriving DecidableEq

/-- The outcome of one HTTP POST attempt, chosen by the environment:
either an exception raised while posting (connection error, timeout, ...),
or a response carrying a status code and the outcome of JSON-decoding its
body (`.error` when `response.json()` raises). -/
inductive Attempt where
  | fault : Str → Attempt
  | reply : Nat → Except Str JVal → Attempt

/-- `initialize` payload (lines 50-65): id 1, full params as in the
source. -/
def init_payload : RequestEnvelope :=
  { jsonrpc := "2.0".toList
    id := 1
    method := "initialize".toList
    params := .obj
      [ ("protocolVersion".toList, .str ("2024-11-05".toList)),
        ("capabilities".toList, .obj
          [ ("roots".toList, .obj [("listChanged".toList, .bool true)]),
            ("resources".toList, .obj [("listChanged".toList, .bool true)]) ]),
        ("clientInfo".toList, .obj
          [ ("name".toList, .str ("MFA-Version-2".toList)),
            ("version".toList, .str ("1.0.0".toList)) ]) ] }

/-- `login` payload (lines 95-103): id 2, tool call with empty arguments. -/
def login_payload : RequestEnvelope :=
  { jsonrpc := "2.0".toList
    id := 2
    method := "tools/call".toList
    params := .obj
      [ ("name".toList, .str ("login".toList)),
        ("arguments".toList, .obj []) ] }

/-- Portfolio payload (lines 157-171): id 3, tool call invoking
`get_investment_advice`.  The arguments mapping (which embeds the
float-formatted natural-language query text) is passed in already built,
since its construction involves floating-point formatting and no claim
depends on its content. -/
def recommendation_payload (args : JVal) : RequestEnvelope :=
  { jsonrpc := "2.0".toList
    id := 3
    method := "tools/call".toList
    params := .obj
      [ ("name".toList, .str ("get_investment_advice".toList)),
        ("arguments".toList, args) ] }

/-- `retry_count` field of the client (line 27). -/
def retry_count : Nat := 3

/-- Exhaustion message of `initialize_connection` (line 86). -/
def initExhaustMsg : Str :=
  "Failed to initialize MCP connection after all retries".toList

/-- Everything observable about one run of `initialize_connection`: the
returned envelope, the backoff sleeps performed (in order, in time units),
and the request envelopes posted (in order). -/
structure InitTrace where
  response : MCPResponse
  sleeps : List Nat
  posts : List RequestEnvelope

/-- The retry loop of `initialize_connection` (lines 67-86), one list
element per remaining attempt index.  A 200 response whose body decodes
returns success at once.  A non-200 response only logs a warning and moves
to the next attempt (no sleep: line 79 is the whole else-branch).  An
exception — transport fault, or `response.json()` raising on a 200 — is
caught at line 81 and sleeps `2 ^ attempt` time units, but only when
`attempt < retry_count - 1` (lines 83-84).  When the attempts are
exhausted, the fixed failure envelope of line 86 is returned. -/
def initGo (env : Nat → Attempt) : List Nat → InitTrace
  | [] => ⟨⟨false, none, some initExhaustMsg, none⟩, [], []⟩
  | i :: rest =>
    match env i with
    | .fault _ =>
      let t := initGo env rest
      ⟨t.response,
        if i < retry_count - 1 then 2 ^ i :: t.sleeps else t.sleeps,
        init_payload :: t.posts⟩
    | .reply s body =>
      if s = 200 then
        match body with
        | .ok v => ⟨⟨true, some v, none, none⟩, [], [init_payload]⟩
        | .error _ =>
          let t := initGo env rest
          ⟨t.response,
            if i < retry_count - 1 then 2 ^ i :: t.sleeps else t.sleeps,
            init_payload :: t.posts⟩
      else
        let t := initGo env rest
        ⟨t.response, t.sleeps, init_payload :: t.posts⟩

/-- `initialize_connection` (lines 44-90): run the retry loop over
`range(retry_count)`.  (The outer try of lines 46/88 guards only logging
and payload construction, which are pure here.) -/
def initialize_connection (env : Nat → Attempt) : InitTrace :=
  initGo env (List.range retry_count)

/-- The provider's login-domain literal (line 122). -/
def loginDomain : Str := "https://kite.zerodha.com/connect/login".toList

/-- The URL marker literal (line 123). -/
def urlMarker : Str := "URL: ".toList

/-- Login-URL extraction from the text field (lines 122-125): requires the
domain literal; then
`login_info.split("URL: ")[1].split("\n")[0] if "URL: " in login_info else login_info`,
and the result is `.strip()`-ed when placed into the envelope (line 125). -/
def extract_login_url (login_info : Str) : Option Str :=
  if strContains loginDomain login_info then
    some (pyStrip
      (if strContains urlMarker login_info then
        pySplitHead ['\n'] (pySplitSecond urlMarker login_info)
      else login_info))
  else none

/-- Failure envelope of line 128. -/
def invalidFormatResp : MCPResponse :=
  ⟨false, none, some ("Invalid response format".toList), none⟩

/-- Lines 116-128 of `request_login`: the processing of a decoded 200 body.
`Except.error` models a Python exception escaping to the outer handler of
line 134. -/
def loginBodyResult (v : JVal) : Except Str MCPResponse :=
  match pyIn ("result".toList) v with
  | .error e => .error e
  | .ok false => .ok invalidFormatResp
  | .ok true =>
    match pySub v ("result".toList) with
    | .error e => .error e
    | .ok rv =>
      match pyIn ("content".toList) rv with
      | .error e => .error e
      | .ok false => .ok invalidFormatResp
      | .ok true =>
        match pySub rv ("content".toList) with
        | .error e => .error e
        | .ok (.arr (e0 :: _)) =>
          match pyGetText e0 with
          | .error e => .error e
          | .ok (.str s) =>
            match extract_login_url s with
            | some url => .ok ⟨true, none, none, some url⟩
            | none => .ok invalidFormatResp
          | .ok other =>
            match pyIn loginDomain other with
            | .error e => .error e
            | .ok true => .error ("AttributeError".toList)
            | .ok false => .ok invalidFormatResp
        | .ok _ => .ok invalidFormatResp

/-- Error message of line 130. -/
def loginStatusMsg (s : Nat) : Str :=
  "Login request failed with status ".toList ++ natToStr s

/-- `request_login` (lines 92-137).  Any exception — transport fault, body
decode failure, or a Python error raised while traversing the decoded
body — is caught at line 134 and prefixed with "Login request error: ". -/
def request_login (att : Attempt) : MCPResponse :=
  match att with
  | .fault m => ⟨false, none, some ("Login request error: ".toList ++ m), none⟩
  | .reply s body =>
    if s = 200 then
      match body with
      | .ok v =>
        match loginBodyResult v with
        | .ok r => r
        | .error m => ⟨false, none, some ("Login request error: ".toList ++ m), none⟩
      | .error m => ⟨false, none, some ("Login request error: ".toList ++ m), none⟩
    else ⟨false, none, some (loginStatusMsg s), none⟩

/-- Error message of line 185. -/
def portfolioStatusMsg (s : Nat) : Str :=
  "Portfolio request failed with status ".toList ++ natToStr s

/-- `get_portfolio_recommendation` (lines 139-192).  The four numeric/string
parameters only shape the outbound payload (`recommendation_payload`), not
the result computation, so the result is a function of the attempt outcome
alone. -/
def get_portfolio_recommendation (att : Attempt) : MCPResponse :=
  match att with
  | .fault m =>
    ⟨false, none, some ("Portfolio recommendation error: ".toList ++ m), none⟩
  | .reply s body =>
    if s = 200 then
      match body with
      | .ok v => ⟨true, some v, none, none⟩
      | .error m =>
        ⟨false, none, some ("Portfolio recommendation error: ".toList ++ m), none⟩
    else ⟨false, none, some (portfolioStatusMsg s), none⟩

/-- The session-id marker literal (line 197). -/
def sidMarker : Str := "session_id=".toList

/-- `extract_session_id_from_callback` (lines 194-206): on the marker being
present, `callback_url.split("session_id=")[1].split("&")[0]` is stored in
`session_id`, `authenticated` is set, and the id is returned; otherwise the
state is untouched and `None` is returned.  (The except-handler of line 204
is unreachable for string inputs: no operation in the body raises.) -/
def extract_session_id_from_callback (st : ClientState) (callback_url : Str) :
    ClientState × Option Str :=
  if strContains sidMarker callback_url then
    let sid := pySplitHead ['&'] (pySplitSecond sidMarker callback_url)
    (⟨some sid, true⟩, some sid)
  else (st, none)

/-- `initialize_connection` as a state transformer on the client's
authentication state: the method body (lines 44-90) never assigns
`self.session_id` or `self.authenticated`, so the state passes through. -/
def initialize_connectionS (st : ClientState) (env : Nat → Attempt) :
    ClientState × InitTrace :=
  (st, initialize_connection env)

/-- `request_login` as a state transformer: the method body (lines 92-137)
never assigns `self.session_id` or `self.authenticated`. -/
def request_loginS (st : ClientState) (att : Attempt) :
    ClientState × MCPResponse :=
  (st, request_login att)

/-- The authentication-related Streamlit session state of
`streamlit_app.py`: the `authenticated` flag (line 26) and the stored login
URL (line 28), the app's stored credential data. -/
structure AppState where
  authenticated : Bool
  login_url : Option Str
deriving DecidableEq

/-- The logout button handler (`streamlit_app.py` lines 180-183): sets
`authenticated` to false and clears `login_url`, unconditionally. -/
def logout (s : AppState) : AppState :=
  { s with authenticated := false, login_url := none }

/-! ## Observables of a single attempt, and spec-side definitions -/

/-- The decoded payload of an attempt that succeeded at the protocol level:
status 200 and a body that decodes.  `none` otherwise. -/
def okData : Attempt → Option JVal
  | .fault _ => none
  | .reply s body =>
    if s = 200 then
      match body with
      | .ok v => some v
      | .error _ => none
    else none

/-- The attempt carried status 200 with a decodable body. -/
def isOk200 (a : Attempt) : Bool := (okData a).isSome

/-- The attempt raised an exception inside the per-attempt try of
`initialize_connection`: a transport fault, or `response.json()` raising on
a 200 response. -/
def isFaultLike : Attempt → Bool
  | .fault _ => true
  | .reply s body =>
    if s = 200 then
      match body with
      | .ok _ => false
      | .error _ => true
    else false

/-- Spec-side reading of "the substring between that marker and the next
line break": everything up to (excluding) the first newline. -/
def upToNewline (t : Str) : Str := t.takeWhile (fun c => !(c == '\n'))

/-- The backoff sleeps `initialize_connection` actually performs, in closed
form: a sleep of `2 ^ k` happens after attempt `k` exactly when every
attempt up to `k` was non-successful, attempt `k` raised (fault or body
decode failure on a 200 — a plain non-200 status does not sleep), and
`k < retry_count - 1`. -/
def initBackoffSleepsSpec (env : Nat → Attempt) : List Nat :=
  if isOk200 (env 0) then []
  else
    (if isFaultLike (env 0) then [1] else []) ++
      (if isOk200 (env 1) then []
       else if isFaultLike (env 1) then [2] else [])

/-- An environment replaying a fixed list of attempt outcomes. -/
def attemptsEnv (l : List Attempt) : Nat → Attempt :=
  fun i => l.getD i (.fault [])

/-- Scenario: status 500 on the first two attempts, then 200. -/
def env500 : Nat → Attempt :=
  attemptsEnv
    [.reply 500 (.ok .null), .reply 500 (.ok .null), .reply 200 (.ok .null)]

/-- Scenario: transport faults on the first two attempts, then 200. -/
def envFaults : Nat → Attempt :=
  attemptsEnv
    [.fault ("boom".toList), .fault ("boom".toList), .reply 200 (.ok .null)]

/-- Scenario: status 500 on every attempt. -/
def envAll500 : Nat → Attempt := fun _ => .reply 500 (.ok .null)

/-- Scenario: status 500 once, then 200. -/
def env500Once : Nat → Attempt :=
  attemptsEnv [.reply 500 (.ok .null), .reply 200 (.ok .null)]

/-- The worked extraction example of the specification. -/
def c4Example : Str :=
  "Please login. URL: https://kite.zerodha.com/connect/login?x=1\nmore text".toList

/-- A text with the domain literal and trailing whitespace between the
marker and the line break. -/
def c4Bad : Str :=
  "https://kite.zerodha.com/connect/login URL: abc \nmore".toList

/-- Callback with a session id followed by further query parameters. -/
def cbGood : Str :=
  "https://host/cb?status=success&session_id=abc123&foo=bar".toList

/-- The same callback with the `session_id=` marker removed. -/
def cbNoMarker : Str := "https://host/cb?status=success&foo=bar".toList

/-- Callback whose `session_id=` marker is followed by the end of the
string. -/
def cbEmptySid : Str := "https://host/cb?session_id=".toList

/-- A decoded login body whose text field carries the worked example. -/
def goodLoginBody : JVal :=
  .obj [("result".toList,
    .obj [("content".toList,
      .arr [.obj [("text".toList, .str c4Example)]])])]

/-- A result envelope invariant: a successful envelope has no error
message, and a failed envelope has a nonempty error message. -/
def respOk (r : MCPResponse) : Prop :=
  (r.success = true ∧ r.error = none) ∨
    (r.success = false ∧ ∃ c ms, r.error = some (c :: ms))

/-! ## Helper lemmas -/

lemma isPrefixOf_self : ∀ l : Str, l.isPrefixOf l = true := by
  intro l
  induction l with
  | nil => rfl
  | cons c t ih => simp [List.isPrefixOf, ih]

lemma afterFirst_append_isSome (p n : Str) :
    (afterFirst n (p ++ n)).isSome = true := by
  induction p with
  | nil =>
    cases n with
    | nil => rfl
    | cons c t => simp [afterFirst, isPrefixOf_self]
  | cons c p' ih =>
    show (afterFirst n (c :: (p' ++ n))).isSome = true
    rw [afterFirst]
    split
    · rfl
    · exact ih

lemma strContains_append_self (p n : Str) : strContains n (p ++ n) = true :=
  afterFirst_append_isSome p n

lemma beforeFirst_single (c : Char) :
    ∀ s : Str, beforeFirst [c] s = s.takeWhile (fun a => !(a == c)) := by
  intro s
  induction s with
  | nil => rfl
  | cons a t ih =>
    by_cases h : a = c
    · subst h
      simp [beforeFirst, List.isPrefixOf, List.takeWhile]
    · have hac : (a == c) = false := by simpa using h
      have hca : (c == a) = false := by
        simpa using fun e => h e.symm
      simp [beforeFirst, List.isPrefixOf, List.takeWhile, hac, hca, ih]

/-- One unfolding of the retry loop. -/
lemma initGo_cons (env : Nat → Attempt) (i : Nat) (rest : List Nat) :
    initGo env (i :: rest) =
      if (okData (env i)).isSome then
        ⟨⟨true, okData (env i), none, none⟩, [], [init_payload]⟩
      else
        ⟨(initGo env rest).response,
          if isFaultLike (env i) && decide (i < retry_count - 1) then
            2 ^ i :: (initGo env rest).sleeps
          else (initGo env rest).sleeps,
          init_payload :: (initGo env rest).posts⟩ := by
  rcases h : env i with m | ⟨s, body⟩
  · simp [initGo, h, okData, isFaultLike]
  · rcases body with v | e
    · by_cases hs : s = 200
      · subst hs
        simp [initGo, h, okData, isFaultLike]
      · simp [initGo, h, okData, isFaultLike, hs]
    · by_cases hs : s = 200
      · subst hs
        simp [initGo, h, okData, isFaultLike]
      · simp [initGo, h, okData, isFaultLike, hs]

lemma initGo_success_iff (env : Nat → Attempt) :
    ∀ l, (initGo env l).response.success = true ↔
      ∃ i ∈ l, isOk200 (env i) = true := by
  intro l
  induction l with
  | nil => simp [initGo]
  | cons i rest ih =>
    rw [initGo_cons]
    by_cases h : (okData (env i)).isSome
    · simp [h, isOk200]
    · simp only [h, Bool.false_eq_true, if_false]
      simp only [List.mem_cons, exists_eq_or_imp]
      rw [ih]
      constructor
      · exact Or.inr
      · rintro (h1 | h2)
        · exact absurd h1 (by simp [isOk200, h])
        · exact h2

lemma initGo_exhaust (env : Nat → Attempt) :
    ∀ l, (∀ i ∈ l, isOk200 (env i) = false) →
      (initGo env l).response = ⟨false, none, some initExhaustMsg, none⟩ := by
  intro l
  induction l with
  | nil => intro _; rfl
  | cons i rest ih =>
    intro hall
    rw [initGo_cons]
    have hi : (okData (env i)).isSome = false := hall i (by simp)
    simp only [hi, Bool.false_eq_true, if_false]
    exact ih (fun j hj => hall j (by simp [hj]))

lemma initGo_posts_one (env : Nat → Attempt) :
    ∀ l, ((initGo env l).posts).all (fun e => e.id == 1) = true := by
  intro l
  induction l with
  | nil => rfl
  | cons i rest ih =>
    rw [initGo_cons]
    by_cases h : (okData (env i)).isSome
    · simp [h, init_payload]
    · simp [h, init_payload, ih]

lemma initGo_login_url_none (env : Nat → Attempt) :
    ∀ l, (initGo env l).response.login_url = none := by
  intro l
  induction l with
  | nil => rfl
  | cons i rest ih =>
    rw [initGo_cons]
    by_cases h : (okData (env i)).isSome
    · simp [h]
    · simp [h, ih]

lemma initGo_respOk (env : Nat → Attempt) :
    ∀ l, respOk (initGo env l).response := by
  intro l
  induction l with
  | nil =>
    refine Or.inr ⟨rfl, 'F', ?_⟩
    exact ⟨"ailed to initialize MCP connection after all retries".toList, rfl⟩
  | cons i rest ih =>
    rw [initGo_cons]
    by_cases h : (okData (env i)).isSome
    · simp only [h, if_true]
      exact Or.inl ⟨rfl, rfl⟩
    · simpa [h] using ih

/-- The decoded-body processing of `request_login` either raises, or yields
the fixed invalid-format failure, or yields a success envelope whose only
populated optional field is `login_url`. -/
lemma loginBody_shapes (v : JVal) :
    (∃ e, loginBodyResult v = .error e) ∨
      loginBodyResult v = .ok invalidFormatResp ∨
      ∃ url, loginBodyResult v = .ok ⟨true, none, none, some url⟩ := by
  unfold loginBodyResult
  repeat' split
  all_goals simp

/-- A nonempty-literal prefix makes the whole message nonempty. -/
lemma msg_cons (s : String) (c : Char) (t : Str) (h : s.toList = c :: t)
    (m : Str) : ∃ c' ms, some (s.toList ++ m) = some (c' :: ms) :=
  ⟨c, t ++ m, by rw [h]; simp⟩

lemma request_login_bad (s : Nat) (b : Except Str JVal) (hs : s ≠ 200) :
    request_login (.reply s b) = ⟨false, none, some (loginStatusMsg s), none⟩ := by
  simp [request_login, hs]

lemma portfolio_bad (s : Nat) (b : Except Str JVal) (hs : s ≠ 200) :
    get_portfolio_recommendation (.reply s b) =
      ⟨false, none, some (portfolioStatusMsg s), none⟩ := by
  simp [get_portfolio_recommendation, hs]

lemma respOk_login (att : Attempt) : respOk (request_login att) := by
  rcases att with m | ⟨s, body⟩
  · exact Or.inr ⟨rfl, msg_cons "Login request error: " 'L'
      ("ogin request error: ".toList) (by decide) m⟩
  · by_cases hs : s = 200
    · subst hs
      rcases body with e | v
      · exact Or.inr ⟨rfl, msg_cons "Login request error: " 'L'
          ("ogin request error: ".toList) (by decide) e⟩
      · rcases loginBody_shapes v with ⟨e, he⟩ | hf | ⟨url, hu⟩
        · have : request_login (.reply 200 (.ok v)) =
              ⟨false, none, some ("Login request error: ".toList ++ e), none⟩ := by
            show (match loginBodyResult v with
              | .ok r => r
              | .error m =>
                ⟨false, none, some ("Login request error: ".toList ++ m), none⟩) = _
            rw [he]
          rw [this]
          exact Or.inr ⟨rfl, msg_cons "Login request error: " 'L'
            ("ogin request error: ".toList) (by decide) e⟩
        · have : request_login (.reply 200 (.ok v)) = invalidFormatResp := by
            show (match loginBodyResult v with
              | .ok r => r
              | .error m =>
                ⟨false, none, some ("Login request error: ".toList ++ m), none⟩) = _
            rw [hf]
          rw [this]
          exact Or.inr ⟨rfl, 'I', "nvalid response format".toList, by decide⟩
        · have : request_login (.reply 200 (.ok v)) =
              ⟨true, none, none, some url⟩ := by
            show (match loginBodyResult v with
              | .ok r => r
              | .error m =>
                ⟨false, none, some ("Login request error: ".toList ++ m), none⟩) = _
            rw [hu]
          rw [this]
          exact Or.inl ⟨rfl, rfl⟩
    · rw [request_login_bad s body hs]
      exact Or.inr ⟨rfl, msg_cons "Login request failed with status " 'L'
        ("ogin request failed with status ".toList) (by decide) (natToStr s)⟩

lemma respOk_portfolio (att : Attempt) :
    respOk (get_portfolio_recommendation att) := by
  rcases att with m | ⟨s, body⟩
  · exact Or.inr ⟨rfl, msg_cons "Portfolio recommendation error: " 'P'
      ("ortfolio recommendation error: ".toList) (by decide) m⟩
  · by_cases hs : s = 200
    · subst hs
      rcases body with e | v
      · exact Or.inr ⟨rfl, msg_cons "Portfolio recommendation error: " 'P'
          ("ortfolio recommendation error: ".toList) (by decide) e⟩
      · exact Or.inl ⟨rfl, rfl⟩
    · rw [portfolio_bad s body hs]
      exact Or.inr ⟨rfl, msg_cons "Portfolio request failed with status " 'P'
        ("ortfolio request failed with status ".toList) (by decide) (natToStr s)⟩

lemma portfolio_login_url_none (att : Attempt) :
    (get_portfolio_recommendation att).login_url = none := by
  rcases att with m | ⟨s, body⟩
  · rfl
  · by_cases hs : s = 200
    · subst hs
      rcases body with e | v <;> rfl
    · rw [portfolio_bad s body hs]

lemma range_three : List.range retry_count = [0, 1, 2] := rfl

/-- The sleeps a final (index `retry_count - 1`) or later attempt performs:
none, since the `attempt < retry_count - 1` guard fails. -/
lemma initGo_sleeps_last (env : Nat → Attempt) :
    (initGo env [2]).sleeps = [] := by
  rw [initGo_cons]
  by_cases h : (okData (env 2)).isSome
  · simp [h]
  · simp [h, initGo, retry_count]

lemma init_sleeps_spec (env : Nat → Attempt) :
    (initialize_connection env).sleeps = initBackoffSleepsSpec env := by
  rw [initialize_connection, range_three, initGo_cons]
  by_cases h0 : (okData (env 0)).isSome
  · simp [h0, initBackoffSleepsSpec, isOk200]
  · rw [initGo_cons]
    by_cases h1 : (okData (env 1)).isSome
    · simp [h0, h1, initBackoffSleepsSpec, isOk200, retry_count]
    · simp only [h0, h1, Bool.false_eq_true, if_false, initBackoffSleepsSpec,
        isOk200, retry_count, initGo_sleeps_last env]
      by_cases hf : isFaultLike (env 0) = true <;>
        simp [hf, initGo_sleeps_last env, retry_count]

lemma mutex_of_respOk {r : MCPResponse} (h : respOk r) :
    r.success = false ∨ r.error = none := by
  rcases h with ⟨_, he⟩ | ⟨hs, _⟩
  · exact Or.inr he
  · exact Or.inl hs

lemma beforeFirst_head_ne (sep : Str) (a : Char) (r : Str)
    (h : sep.isPrefixOf (a :: r) = false) :
    beforeFirst sep (a :: r) = a :: beforeFirst sep r := by
  simp [beforeFirst, h]

lemma beforeFirst_single_head (a : Char) (x : Str) :
    beforeFirst [a] (a :: x) = [] := by
  have h : List.isPrefixOf [a] (a :: x) = true := by
    simp [List.isPrefixOf]
  simp [beforeFirst, h]

/-! ## The claims -/

/-- C1, counterexample.  The claim asserts that with statuses 500, 500, 200
exactly two backoff sleeps of 1 and 2 units are performed.  In the code the
backoff sleep happens only in the per-attempt exception handler (lines
81-84); a non-200 status merely logs a warning (line 79), so this scenario
performs no sleep at all (while still ending in success). -/
theorem claim_C1_counterexample :
    (initialize_connection env500).response.success = true ∧
    (initialize_connection env500).sleeps = [] ∧
    decide ((initialize_connection env500).sleeps = [1, 2]) = false := by
  decide

/-- C1, amended.  With statuses 500, 500, 200 the final result is a success
envelope but zero backoff sleeps are performed; with transport faults on the
first two attempts and a 200 on the third, exactly two backoff sleeps of 1
and 2 units are performed and the final result is success.  In general the
sleeps are exactly `initBackoffSleepsSpec`: a sleep of `2 ^ k` after attempt
`k < retry_count - 1` exactly when no earlier attempt succeeded and attempt
`k` raised (transport fault or body-decode failure); non-2xx statuses are
retried but never trigger a backoff sleep. -/
theorem claim_C1_amended :
    ((initialize_connection env500).response.success = true ∧
      (initialize_connection env500).sleeps = []) ∧
    ((initialize_connection envFaults).response.success = true ∧
      (initialize_connection envFaults).sleeps = [1, 2]) ∧
    ∀ env : Nat → Attempt,
      (initialize_connection env).sleeps = initBackoffSleepsSpec env :=
  ⟨by decide, by decide, init_sleeps_spec⟩

/-- C2.  Every execution of each of the three public operations returns an
envelope that is either a success with no error message, or a failure with
a nonempty error message: no fault escapes the operation boundary (the
embedding of each operation is a total function into `MCPResponse`, every
internal fault path of the source being converted at lines 86/90, 128/132/
134-137, and 184-192). -/
theorem claim_C2_envelopes (env : Nat → Attempt) (att1 att2 : Attempt) :
    respOk (initialize_connection env).response ∧
    respOk (request_login att1) ∧
    respOk (get_portfolio_recommendation att2) :=
  ⟨initGo_respOk env _, respOk_login att1, respOk_portfolio att2⟩

/-- C3.  On every execution path of each public operation, success and a
present error message are mutually exclusive, and `login_url` is populated
only by `request_login`: `initialize_connection` and
`get_portfolio_recommendation` always leave it `none`, while
`request_login` does populate it on a well-formed login response. -/
theorem claim_C3_invariants (env : Nat → Attempt) (att1 att2 : Attempt) :
    ((initialize_connection env).response.success = false ∨
      (initialize_connection env).response.error = none) ∧
    ((request_login att1).success = false ∨ (request_login att1).error = none) ∧
    ((get_portfolio_recommendation att2).success = false ∨
      (get_portfolio_recommendation att2).error = none) ∧
    (initialize_connection env).response.login_url = none ∧
    (get_portfolio_recommendation att2).login_url = none ∧
    (request_login (.reply 200 (.ok goodLoginBody))).login_url =
      some ("https://kite.zerodha.com/connect/login?x=1".toList) :=
  ⟨mutex_of_respOk (initGo_respOk env _), mutex_of_respOk (respOk_login att1),
    mutex_of_respOk (respOk_portfolio att2), initGo_login_url_none env _,
    portfolio_login_url_none att2, by decide⟩

/-- C4, counterexample.  The claim says the extracted login URL is the
substring between the marker and the next line break.  On a text whose
marker is followed by "abc " and then a line break, that substring is
"abc " but the code extracts "abc": line 125 strips surrounding whitespace
before populating the envelope. -/
theorem claim_C4_counterexample :
    extract_login_url c4Bad = some ("abc".toList) ∧
    upToNewline ((afterFirst urlMarker c4Bad).getD []) = "abc ".toList ∧
    decide (extract_login_url c4Bad =
      some (upToNewline ((afterFirst urlMarker c4Bad).getD []))) = false := by
  decide

/-- C4, amended.  For every text containing the login-domain literal: if
the text contains the marker "URL: ", the extracted URL is the substring
after the first occurrence of the marker, truncated at the next occurrence
of the marker (Python split semantics of line 123) and at the next line
break, and stripped of surrounding whitespace; otherwise the whole text,
stripped, is used.  The worked example still extracts exactly
"https://kite.zerodha.com/connect/login?x=1". -/
theorem claim_C4_amended :
    (∀ t : Str, strContains loginDomain t = true →
      extract_login_url t = some (pyStrip
        (if strContains urlMarker t then
          upToNewline (beforeFirst urlMarker ((afterFirst urlMarker t).getD []))
        else t))) ∧
    extract_login_url c4Example =
      some ("https://kite.zerodha.com/connect/login?x=1".toList) := by
  constructor
  · intro t h
    simp only [extract_login_url, h, if_true]
    by_cases hm : strContains urlMarker t = true
    · simp only [hm, if_true, pySplitHead, pySplitSecond, upToNewline,
        beforeFirst_single]
    · simp only [hm, Bool.false_eq_true, if_false]
  · decide

/-- C4, witness for the amended theorem at the worked example. -/
theorem claim_C4_witness :
    strContains loginDomain c4Example = true ∧
    extract_login_url c4Example = some (pyStrip
      (if strContains urlMarker c4Example then
        upToNewline (beforeFirst urlMarker
          ((afterFirst urlMarker c4Example).getD []))
      else c4Example)) :=
  ⟨by decide, claim_C4_amended.1 c4Example (by decide)⟩

/-- C5.  On the good callback, extraction succeeds with exactly "abc123"
and sets both session fields, from any prior state; on any callback lacking
the `session_id=` marker it returns `none` and leaves the state
unchanged. -/
theorem claim_C5_extract_session :
    (∀ st : ClientState, extract_session_id_from_callback st cbGood =
      (⟨some ("abc123".toList), true⟩, some ("abc123".toList))) ∧
    ∀ (st : ClientState) (cb : Str), strContains sidMarker cb = false →
      extract_session_id_from_callback st cb = (st, none) := by
  constructor
  · intro st
    have h : strContains sidMarker cbGood = true := by decide
    simp only [extract_session_id_from_callback, h, if_true]
    decide
  · intro st cb h
    simp [extract_session_id_from_callback, h]

/-- C5, witness: the marker-removed callback of the specification. -/
theorem claim_C5_witness :
    strContains sidMarker cbNoMarker = false ∧
    extract_session_id_from_callback ⟨none, false⟩ cbNoMarker =
      (⟨none, false⟩, none) :=
  ⟨by decide, claim_C5_extract_session.2 ⟨none, false⟩ cbNoMarker (by decide)⟩

/-- C6, counterexample.  The claim says every non-200 status yields a
failure whose error message embeds the numeric status code.  For
`initialize_connection`, non-200 statuses are retried and, once the
attempts are exhausted, the failure carries the fixed message of line 86,
which does not contain "500". -/
theorem claim_C6_counterexample :
    (initialize_connection envAll500).response.success = false ∧
    (initialize_connection envAll500).response.error = some initExhaustMsg ∧
    strContains (natToStr 500) initExhaustMsg = false := by
  decide

/-- C6, amended.  Status 200 (with a decodable body) is the sole success
discriminator for all three operations.  For `request_login` and
`get_portfolio_recommendation` a non-200 status yields a failure whose
message embeds the numeric status (lines 130, 185); for
`initialize_connection` non-200 attempts are retried, success holds iff
some attempt within `retry_count` gets a 200 with decodable body, and full
exhaustion yields the fixed message of line 86 (without the status). -/
theorem claim_C6_amended :
    (∀ (s : Nat) (b : Except Str JVal), s ≠ 200 →
      request_login (.reply s b) =
        ⟨false, none, some (loginStatusMsg s), none⟩ ∧
      strContains (natToStr s) (loginStatusMsg s) = true) ∧
    (∀ (s : Nat) (b : Except Str JVal), s ≠ 200 →
      get_portfolio_recommendation (.reply s b) =
        ⟨false, none, some (portfolioStatusMsg s), none⟩ ∧
      strContains (natToStr s) (portfolioStatusMsg s) = true) ∧
    (∀ env : Nat → Attempt,
      (initialize_connection env).response.success = true ↔
        ∃ i, i < retry_count ∧ isOk200 (env i) = true) ∧
    (∀ env : Nat → Attempt, (∀ i, i < retry_count → isOk200 (env i) = false) →
      (initialize_connection env).response.error = some initExhaustMsg) := by
  refine ⟨?_, ?_, ?_, ?_⟩
  · intro s b hs
    exact ⟨request_login_bad s b hs, strContains_append_self _ _⟩
  · intro s b hs
    exact ⟨portfolio_bad s b hs, strContains_append_self _ _⟩
  · intro env
    rw [initialize_connection, initGo_success_iff]
    simp [List.mem_range]
  · intro env h
    rw [initialize_connection,
      initGo_exhaust env _ (fun i hi => h i (by simpa using hi))]

/-- C6, witness for the amended theorem at status 500. -/
theorem claim_C6_witness :
    (request_login (.reply 500 (.ok .null)) =
      ⟨false, none, some (loginStatusMsg 500), none⟩ ∧
      strContains (natToStr 500) (loginStatusMsg 500) = true) ∧
    (initialize_connection envAll500).response.error = some initExhaustMsg :=
  ⟨claim_C6_amended.1 500 (.ok .null) (by decide),
    claim_C6_amended.2.2.2 envAll500 (by decide)⟩

/-- C7, counterexample.  The claim says each outbound call carries a
strictly increasing request id.  A handshake whose first attempt gets a 500
and whose second succeeds performs two outbound posts, both carrying id 1
(the single payload built at lines 50-53 is re-posted on retry). -/
theorem claim_C7_counterexample :
    (initialize_connection env500Once).posts.map RequestEnvelope.id = [1, 1] ∧
    strictIncrB
      ((initialize_connection env500Once).posts.map RequestEnvelope.id) =
        false := by
  decide

/-- C7, amended.  The request id is a fixed per-operation constant — 1 for
the handshake (every post of every retry), 2 for the login call, 3 for the
advice call — so ids increase across the sequence handshake, login, advice
but repeated posts of one operation reuse the same id. -/
theorem claim_C7_amended :
    (∀ env : Nat → Attempt,
      ((initialize_connection env).posts).all (fun e => e.id == 1) = true) ∧
    init_payload.id = 1 ∧ login_payload.id = 2 ∧
    (∀ args : JVal, (recommendation_payload args).id = 3) ∧
    strictIncrB [init_payload.id, login_payload.id,
      (recommendation_payload (.obj [])).id] = true :=
  ⟨fun env => initGo_posts_one env _, rfl, rfl, fun _ => rfl, by decide⟩

/-- C8.  The logout handler on an already-unauthenticated app state (flag
false, no stored login URL — the state the spec calls `Unauthenticated`)
is a no-op, and on any state it unconditionally resets to that state; it is
a total function, hence has no failure mode.  (The handler stores no
separate session-id field: the app's stored credential data cleared here is
the `authenticated` flag and the `login_url`.) -/
theorem claim_C8_logout :
    (∀ s : AppState, s.authenticated = false → s.login_url = none →
      logout s = s) ∧
    (∀ s : AppState, logout s = ⟨false, none⟩) := by
  constructor
  · intro s h1 h2
    rcases s with ⟨a, l⟩
    simp_all [logout]
  · intro s
    rfl

/-- C8, witness: logout of the unauthenticated state. -/
theorem claim_C8_witness : logout ⟨false, none⟩ = (⟨false, none⟩ : AppState) :=
  claim_C8_logout.1 ⟨false, none⟩ rfl rfl

/-- C9.  Whenever the first occurrence of `session_id=` in the callback is
immediately followed by `&` or by the end of the string, extraction
succeeds with the empty string, stores it, and sets `authenticated`; in
particular on the callback that ends at the marker.  No non-emptiness
validation is performed. -/
theorem claim_C9_empty_session_id :
    (∀ (st : ClientState) (cb t : Str), afterFirst sidMarker cb = some t →
      (t = [] ∨ ∃ r, t = '&' :: r) →
      extract_session_id_from_callback st cb = (⟨some [], true⟩, some [])) ∧
    extract_session_id_from_callback ⟨none, false⟩ cbEmptySid =
      (⟨some [], true⟩, some []) := by
  constructor
  · intro st cb t h ht
    have hc : strContains sidMarker cb = true := by
      rw [strContains, h]
      rfl
    have hsid : pySplitHead ['&'] (pySplitSecond sidMarker cb) = [] := by
      rw [pySplitHead, pySplitSecond, h]
      rcases ht with rfl | ⟨r, rfl⟩
      · rfl
      · have hp : sidMarker.isPrefixOf ('&' :: r) = false := by
          show (('s' == '&') && ("ession_id=".toList).isPrefixOf r) = false
          rw [show ('s' == '&') = false from by decide]
          rfl
        rw [show ((some ('&' :: r)).getD [] : Str) = '&' :: r from rfl,
          beforeFirst_head_ne sidMarker '&' r hp]
        exact beforeFirst_single_head '&' _
    simp only [extract_session_id_from_callback, hc, if_true, hsid]
  · decide

/-- C9, witness: the callback ending at the marker. -/
theorem claim_C9_witness :
    extract_session_id_from_callback ⟨none, false⟩ cbEmptySid =
      (⟨some [], true⟩, some []) :=
  claim_C9_empty_session_id.1 ⟨none, false⟩ cbEmptySid [] (by decide)
    (Or.inl rfl)

/-- C10.  `initialize_connection` and `request_login` never mutate the
client's authentication state (their bodies never assign `session_id` or
`authenticated`, so as state transformers they are the identity on
`ClientState`), while `extract_session_id_from_callback` does mutate both
fields. -/
theorem claim_C10_frame (st : ClientState) (env : Nat → Attempt)
    (att : Attempt) :
    (initialize_connectionS st env).1 = st ∧
    (request_loginS st att).1 = st ∧
    (extract_session_id_from_callback ⟨none, false⟩ cbGood).1.authenticated
      = true ∧
    (extract_session_id_from_callback ⟨none, false⟩ cbGood).1.session_id =
      some ("abc123".toList) :=
  ⟨rfl, rfl, by decide, by decide⟩

end MFAv2
